import Mathlib

/-!
Verification of the session-lifecycle controller of the Capacitor
speech-recognition Android plugin
(`android/src/main/java/app/capgo/speechrecognition/SpeechRecognitionPlugin.java`).

The Java plugin is embedded shallowly:

* pure helpers (`getErrorCode`, `getErrorText`, the reason classification in
  `onError`, `buildMatchesWithUnstableText`) become Lean functions;
* the mutable plugin fields (`state`, `sessionId`, `listening`,
  `readyForNext`, `speechRecognizer`, `previousPartialResults`) become a
  `PluginState` record;
* every runnable that the Java code posts to the main/webview thread
  (the `beginListening` inline-start runnable, the `stopListening` runnable,
  and the recognizer-recreate runnable of `finishSession`) becomes an entry
  of a FIFO `mainQueue`, executed by an explicit `runMain` step, so that
  caller-driven `start()`/`stop()` calls can interleave with them exactly as
  the Android threading model allows;
* engine callbacks (`onError`, `onResults`, `onPartialResults`,
  `onSegmentResults`, `onEndOfSegmentedSession`) are steps carrying the
  session id that the `SpeechRecognitionListener` captured at construction;
* `notifyListeners(...)` calls become an emitted `Event` list.

Since Lean identifiers cannot use some of the Java names, the partial-result
machinery is named `interim` here: `Event.interimResults` is the Java
`partialResults` event, `onInterimOp` is `onPartialResults`, and the
`previousInterim` field is `previousPartialResults`.
-/

namespace SpeechRec

/-! ### Android `SpeechRecognizer` error-code constants -/

/-- Android constant `SpeechRecognizer.ERROR_NETWORK_TIMEOUT`. -/
def networkTimeoutCode : Int := 1

/-- Android constant `SpeechRecognizer.ERROR_NETWORK`. -/
def networkCode : Int := 2

/-- Android constant `SpeechRecognizer.ERROR_AUDIO`. -/
def audioCode : Int := 3

/-- Android constant `SpeechRecognizer.ERROR_SERVER`. -/
def serverCode : Int := 4

/-- Android constant `SpeechRecognizer.ERROR_CLIENT`. -/
def clientCode : Int := 5

/-- Android constant `SpeechRecognizer.ERROR_SPEECH_TIMEOUT`. -/
def speechTimeoutCode : Int := 6

/-- Android constant `SpeechRecognizer.ERROR_NO_MATCH`. -/
def noMatchCode : Int := 7

/-- Android constant `SpeechRecognizer.ERROR_RECOGNIZER_BUSY`. -/
def recognizerBusyCode : Int := 8

/-- Android constant `SpeechRecognizer.ERROR_INSUFFICIENT_PERMISSIONS`. -/
def insufficientPermissionsCode : Int := 9

/-! ### The error mapper (`getErrorCode`, `getErrorText`, `onError` reason) -/

/-- Java `getErrorCode`: symbolic code for a native error code. -/
def getErrorCode (errorCode : Int) : String :=
  if errorCode = audioCode then "AUDIO"
  else if errorCode = clientCode then "CLIENT"
  else if errorCode = insufficientPermissionsCode then "INSUFFICIENT_PERMISSIONS"
  else if errorCode = networkCode then "NETWORK"
  else if errorCode = networkTimeoutCode then "NETWORK_TIMEOUT"
  else if errorCode = noMatchCode then "NO_MATCH"
  else if errorCode = recognizerBusyCode then "RECOGNIZER_BUSY"
  else if errorCode = serverCode then "SERVER"
  else if errorCode = speechTimeoutCode then "SPEECH_TIMEOUT"
  else "UNKNOWN_" ++ toString errorCode

/-- Java `getErrorText`: human-readable message for a native error code. -/
def getErrorText (errorCode : Int) : String :=
  if errorCode = audioCode then "Audio recording error"
  else if errorCode = clientCode then "Client side error"
  else if errorCode = insufficientPermissionsCode then "Insufficient permissions"
  else if errorCode = networkCode then "Network error"
  else if errorCode = networkTimeoutCode then "Network timeout"
  else if errorCode = noMatchCode then "No match"
  else if errorCode = recognizerBusyCode then "RecognitionService busy"
  else if errorCode = serverCode then "Error from server"
  else if errorCode = speechTimeoutCode then "No speech input"
  else "Didn't understand, please try again."

/-- The reason classification inside `SpeechRecognitionListener.onError`:
`silence` for `ERROR_NO_MATCH` and `ERROR_SPEECH_TIMEOUT`, `error` otherwise. -/
def errorReason (error : Int) : String :=
  if error = noMatchCode ∨ error = speechTimeoutCode then "silence" else "error"

/-! ### Character-level string helpers

Java `String.trim()` removes leading and trailing characters with code point
at most `U+0020`; `String.endsWith` is a suffix test; `String.isEmpty` tests
for the empty string.  They are defined here over the character list of the
string so that they evaluate inside the kernel. -/

/-- A character removed by Java `String.trim()`: code point at most 32. -/
def isTrimmedChar (c : Char) : Bool :=
  c.toNat ≤ 32

/-- Java `String.trim()` on a character list. -/
def trimChars (l : List Char) : List Char :=
  ((l.dropWhile isTrimmedChar).reverse.dropWhile isTrimmedChar).reverse

/-- Java `String.trim()`. -/
def strTrim (s : String) : String :=
  ⟨trimChars s.data⟩

/-- Java `String.endsWith(t)`. -/
def strEndsWith (s t : String) : Bool :=
  t.data.isSuffixOf s.data

/-- Java `String.isEmpty()`. -/
def strIsEmpty (s : String) : Bool :=
  s.data.isEmpty

/-! ### `buildMatchesWithUnstableText` -/

/-- Java `SpeechRecognitionListener.buildMatchesWithUnstableText`: merge the
trailing unstable fragment (bundle extra `android.speech.extra.UNSTABLE_TEXT`)
into the first match unless the trimmed fragment is empty, equal to the
trimmed first match, or already its space-separated suffix. `none` models a
null `ArrayList` / absent bundle string. -/
def buildMatchesWithUnstableText (matchList : Option (List String))
    (unstableText : Option String) : Option (List String) :=
  match matchList with
  | none => none
  | some ms =>
    if ms.isEmpty then some ms
    else
      match unstableText with
      | none => some ms
      | some u =>
        let trimmedUnstable := strTrim u
        if strIsEmpty trimmedUnstable then some ms
        else
          let trimmedFirstMatch := strTrim (ms.headD "")
          if trimmedFirstMatch == trimmedUnstable
              || strEndsWith trimmedFirstMatch (" " ++ trimmedUnstable) then some ms
          else some ((trimmedFirstMatch ++ " " ++ trimmedUnstable) :: ms.tail)

/-! ### State, events, queued main-thread tasks -/

/-- The Java `ListeningState` enum. -/
inductive LState
  | idle
  | starting
  | started
  | stopping
  deriving DecidableEq

/-- One `notifyListeners` emission.  `listeningState` carries the payload
fields of the Java `listeningState` event: the `state` string, `sessionId`,
`reason`, and the optional `errorCode` and `status` entries (`none` models an
absent key).  `interimResults` is the Java `partialResults` event. -/
inductive Event
  | listeningState (st : String) (sessionId : Nat) (reason : String)
      (errorCode : Option String) (status : Option String)
  | errorEvent (code : String) (message : String) (sessionId : Nat)
  | readyForNextSession (sessionId : Nat)
  | interimResults (matchList : List String)
  | segmentResults (matchList : List String)
  | endOfSegment
  deriving DecidableEq

/-- A runnable posted to the main/webview thread.  `beginTask` is the inline
start runnable of `beginListening` (capturing the session id and the Java
`partialResults` flag), `stopTask` the `stopListening` runnable, and
`recreateTask` the recognizer-recreate runnable of `finishSession`. -/
inductive MainTask
  | beginTask (capturedId : Nat) (interim : Bool)
  | stopTask
  | recreateTask (finishedId : Nat) (reason : String) (errorCode : Option String)
  deriving DecidableEq

/-- The mutable plugin fields.  `lstate` is the Java `state` field,
`recognizer` whether `speechRecognizer != null`, `installedId` the session id
captured by the currently installed listener, `startedIds` the ids of
listeners whose recognizer was actually given `startListening` (only those
can ever receive engine callbacks), and `previousInterim` the Java
`previousPartialResults`. -/
structure PluginState where
  lstate : LState
  sessionId : Nat
  listening : Bool
  readyForNext : Bool
  recognizer : Bool
  installedId : Option Nat
  startedIds : List Nat
  previousInterim : List String
  mainQueue : List MainTask
  deriving DecidableEq

/-- The plugin state after `load()`: idle, session counter 0, a recognizer
created with the initial listener, nothing queued. -/
def initState : PluginState :=
  { lstate := .idle
    sessionId := 0
    listening := false
    readyForNext := true
    recognizer := true
    installedId := some 0
    startedIds := []
    previousInterim := []
    mainQueue := [] }

/-! ### Operations -/

/-- Result of the synchronous part of `start`: the two precondition
rejections (`call.unavailable(NOT_AVAILABLE)` and
`call.reject(MISSING_PERMISSION)`) or the session having been started. -/
inductive StartOutcome
  | unavailableErr
  | permissionErr
  | startedOk
  deriving DecidableEq

/-- Java `start(call)`, synchronous part: precondition checks, session id
increment, `startingListening` emission, and (inline mode) posting the
`beginListening` runnable; popup mode instead launches the activity. -/
def startOp (avail granted popup interim : Bool) (s : PluginState) :
    PluginState × List Event × StartOutcome :=
  if !avail then (s, [], .unavailableErr)
  else if !granted then (s, [], .permissionErr)
  else
    let newId := s.sessionId + 1
    let ev := Event.listeningState "startingListening" newId "userStart" none none
    let s1 : PluginState := { s with sessionId := newId, lstate := .starting }
    if popup then (s1, [ev], .startedOk)
    else
      ({ s1 with mainQueue := s1.mainQueue ++ [.beginTask newId interim] },
       [ev], .startedOk)

/-- Java `stop(call)`: no-op when idle, otherwise transition to STOPPING,
emit `stoppingListening`, and post the `stopListening` runnable. -/
def stopOp (s : PluginState) : PluginState × List Event :=
  if s.lstate = .idle then (s, [])
  else
    ({ s with lstate := .stopping, mainQueue := s.mainQueue ++ [.stopTask] },
     [Event.listeningState "stoppingListening" s.sessionId "userStop" none none])

/-- Java `finishSession(finishedSessionId, reason, errorCode)`, synchronous
part: ignore a stale id; otherwise emit `stoppingListening` unless already
STOPPING, tear the recognizer down, go IDLE, clear flags, and post the
recreate runnable. -/
def finishSessionOp (finishedSessionId : Nat) (reason : String)
    (errorCode : Option String) (s : PluginState) : PluginState × List Event :=
  if finishedSessionId ≠ s.sessionId then (s, [])
  else
    let evs :=
      if s.lstate ≠ .stopping then
        [Event.listeningState "stoppingListening" finishedSessionId reason errorCode none]
      else []
    ({ s with
        lstate := .idle
        listening := false
        readyForNext := false
        recognizer := false
        installedId := none
        mainQueue := s.mainQueue ++ [.recreateTask finishedSessionId reason errorCode] },
     evs)

/-- The inline-start runnable posted by `beginListening`: destroy and
recreate the recognizer, install a listener capturing `capturedId`, call
`startListening`, set the `listening` flag, transition to STARTED and emit
`started`.  On failure, emit a `START_FAILED` error and finish the session. -/
def runBegin (ok : Bool) (capturedId : Nat) (_interim : Bool) (s : PluginState) :
    PluginState × List Event :=
  if ok then
    ({ s with
        recognizer := true
        installedId := some capturedId
        startedIds := s.startedIds ++ [capturedId]
        listening := true
        lstate := .started },
     [Event.listeningState "started" capturedId "userStart" none (some "started")])
  else
    let p := finishSessionOp capturedId "error" (some "START_FAILED")
      { s with recognizer := false, installedId := none }
    (p.1, Event.errorEvent "START_FAILED" "start failed" capturedId :: p.2)

/-- The `stopListening` runnable posted by `stopListening()`: request a
graceful native stop and clear the `listening` flag when it was set. -/
def runStop (s : PluginState) : PluginState × List Event :=
  if s.listening then ({ s with listening := false }, []) else (s, [])

/-- The recreate runnable posted by `finishSession`: recreate the recognizer
with a dummy listener capturing the session id current at execution time,
set `readyForNext`, emit `readyForNextSession`, then emit the terminal
`stopped` event.  On recreation failure emit `RECREATE_FAILED` but still
emit `stopped`. -/
def runRecreate (ok : Bool) (finishedId : Nat) (reason : String)
    (errorCode : Option String) (s : PluginState) : PluginState × List Event :=
  let stoppedEv := Event.listeningState "stopped" finishedId reason errorCode (some "stopped")
  if ok then
    ({ s with recognizer := true, installedId := some s.sessionId, readyForNext := true },
     [Event.readyForNextSession finishedId, stoppedEv])
  else
    (s, [Event.errorEvent "RECREATE_FAILED" "recreate failed" finishedId, stoppedEv])

/-- Java `SpeechRecognitionListener.onError`: always emit the error event,
classify the reason, then finish the session under the captured id. -/
def onErrorOp (listenerSessionId : Nat) (error : Int) (s : PluginState) :
    PluginState × List Event :=
  let p := finishSessionOp listenerSessionId (errorReason error)
    (some (getErrorCode error)) s
  (p.1,
   Event.errorEvent (getErrorCode error) (getErrorText error) listenerSessionId :: p.2)

/-- Java `SpeechRecognitionListener.onResults`: deliver the final matches
(resolving the call, or emitting the Java `partialResults` event when the
`partialResults` flag is set), then finish the session with reason
`results`. -/
def onResultsOp (listenerSessionId : Nat) (interim : Bool) (matchList : List String)
    (s : PluginState) : PluginState × List Event :=
  let evs := if interim then [Event.interimResults matchList] else []
  let p := finishSessionOp listenerSessionId "results" none s
  (p.1, evs ++ p.2)

/-- Java `SpeechRecognitionListener.onPartialResults`: build the merged
matches, drop null or empty results, suppress re-emission when unchanged
from `previousPartialResults`, else record and emit them. -/
def onInterimOp (matchList : Option (List String)) (unstableText : Option String)
    (s : PluginState) : PluginState × List Event :=
  match buildMatchesWithUnstableText matchList unstableText with
  | none => (s, [])
  | some ms =>
    if ms.isEmpty then (s, [])
    else if ms = s.previousInterim then (s, [])
    else ({ s with previousInterim := ms }, [Event.interimResults ms])

/-- Java `SpeechRecognitionListener.onSegmentResults`: pass-through event. -/
def onSegmentOp (matchList : Option (List String)) (s : PluginState) :
    PluginState × List Event :=
  match matchList with
  | none => (s, [])
  | some ms => (s, [Event.segmentResults ms])

/-- Java `SpeechRecognitionListener.onEndOfSegmentedSession`: pass-through. -/
def onEndOfSegmentedOp (s : PluginState) : PluginState × List Event :=
  (s, [Event.endOfSegment])

/-- Java `listeningResult` activity callback (popup mode): resolve or reject
the saved call, then clear the `listening` flag.  No event is emitted and
`finishSession` is not invoked. -/
def listeningResultOp (s : PluginState) : PluginState × List Event :=
  ({ s with listening := false }, [])

/-- Java `isListening(call)`: resolves with the `listening` field. -/
def isListeningOp (s : PluginState) : Bool :=
  s.listening

/-! ### The interleaving model -/

/-- One atomic step of the system: an API call, the main thread executing the
next posted runnable (with `ok` the outcome of the fallible native calls
inside it), or the engine delivering a callback to a listener.  Engine
callbacks carry the session id the listener captured at construction and the
`partialResults` flag it was configured with. -/
inductive Op
  | apiStart (avail granted popup interim : Bool)
  | apiStop
  | runMain (ok : Bool)
  | cbError (listenerSessionId : Nat) (error : Int)
  | cbResults (listenerSessionId : Nat) (interim : Bool) (matchList : List String)
  | cbInterim (matchList : Option (List String)) (unstableText : Option String)
  | cbSegment (matchList : Option (List String))
  | cbEndOfSegment
  | popupResult
  deriving DecidableEq

/-- Execute the runnable at the head of the main-thread queue. -/
def runMainTask (ok : Bool) (s : PluginState) : PluginState × List Event :=
  match s.mainQueue with
  | [] => (s, [])
  | t :: rest =>
    let s1 : PluginState := { s with mainQueue := rest }
    match t with
    | .beginTask cid interim => runBegin ok cid interim s1
    | .stopTask => runStop s1
    | .recreateTask fid reason ec => runRecreate ok fid reason ec s1

/-- Apply one step. -/
def applyOp : Op → PluginState → PluginState × List Event
  | .apiStart a g p i, s =>
    let r := startOp a g p i s
    (r.1, r.2.1)
  | .apiStop, s => stopOp s
  | .runMain ok, s => runMainTask ok s
  | .cbError lid err, s => onErrorOp lid err s
  | .cbResults lid interim ms, s => onResultsOp lid interim ms s
  | .cbInterim ms u, s => onInterimOp ms u s
  | .cbSegment ms, s => onSegmentOp ms s
  | .cbEndOfSegment, s => onEndOfSegmentedOp s
  | .popupResult, s => listeningResultOp s

/-- Run a sequence of steps, collecting the emitted events in order. -/
def run : PluginState → List Op → PluginState × List Event
  | s, [] => (s, [])
  | s, op :: ops =>
    let p := applyOp op s
    let q := run p.1 ops
    (q.1, p.2 ++ q.2)

/-- An engine callback can only be delivered to a listener whose recognizer
was actually started (`startListening` was invoked on it). -/
def validOp (s : PluginState) : Op → Bool
  | .cbError lid _ => s.startedIds.contains lid
  | .cbResults lid _ _ => s.startedIds.contains lid
  | _ => true

/-- A step sequence is valid when every engine callback in it targets a
listener that had been started by that point. -/
def validOps : PluginState → List Op → Bool
  | _, [] => true
  | s, op :: ops => validOp s op && validOps (applyOp op s).1 ops

/-! ### Event classifiers used by the claims -/

/-- Is this the terminal `stopped` listening-state event? -/
def isStoppedEvent : Event → Bool
  | .listeningState st _ _ _ _ => st == "stopped"
  | _ => false

/-- The backward-compatibility `status` discipline: `status` is present
exactly on the `started` and `stopped` listening-state events and there
equals the `state` string. -/
def goodStatus : Event → Bool
  | .listeningState st _ _ _ status =>
    ((status == some "started") == (st == "started"))
      && ((status == some "stopped") == (st == "stopped"))
      && (status.isSome == (st == "started" || st == "stopped"))
  | _ => true

/-- An event that would indicate session `p` progressed to `started` or was
closed: a `started` or `stopped` listening-state event tagged `p`, or a
`readyForNextSession` tagged `p`. -/
def closesSessionFor (p : Nat) : Event → Bool
  | .listeningState st sid _ _ _ => sid == p && (st == "started" || st == "stopped")
  | .readyForNextSession sid => sid == p
  | _ => false

/-- Steps that can never reach `finishSession`: anything but an engine
result/error callback or a failed main-thread runnable. -/
def noFinishTrigger : Op → Bool
  | .cbError _ _ => false
  | .cbResults _ _ _ => false
  | .runMain ok => ok
  | _ => true

/-- A queued task that is not the recreate runnable (the only task whose
execution emits `stopped`). -/
def taskNotRecreate : MainTask → Bool
  | .recreateTask _ _ _ => false
  | _ => true

/-- A queued task that cannot start or close session `p`. -/
def taskAvoids (p : Nat) : MainTask → Bool
  | .beginTask cid _ => cid != p
  | .stopTask => true
  | .recreateTask fid _ _ => fid != p

/-- Session `p` can no longer be started or closed from state `s`: the
session counter has reached `p`, no started listener captured `p`, and no
queued runnable mentions `p`. -/
@[reducible] def avoids (p : Nat) (s : PluginState) : Prop :=
  p ≤ s.sessionId ∧ p ∉ s.startedIds ∧ ∀ t ∈ s.mainQueue, taskAvoids p t = true

instance (p : Nat) (s : PluginState) : Decidable (avoids p s) := by
  unfold avoids
  infer_instance

/-! ### C6: the error mapper -/

/-- C6: the native-error mapper is a total, deterministic pure function:
every native error code maps to a symbolic code (`getErrorCode`) and a
message (`getErrorText`); an unmapped code `n` maps to `UNKNOWN_<n>` with a
generic message rather than failing; the derived reason is `silence` exactly
for `ERROR_NO_MATCH` and `ERROR_SPEECH_TIMEOUT` and `error` for every other
code; in particular `getErrorCode 9999 = "UNKNOWN_9999"` with reason
`error`. -/
theorem c6_error_mapper (n : Int) :
    (errorReason n = "silence" ↔ (n = noMatchCode ∨ n = speechTimeoutCode))
      ∧ (errorReason n = "silence" ∨ errorReason n = "error")
      ∧ ((n ≠ networkTimeoutCode ∧ n ≠ networkCode ∧ n ≠ audioCode ∧ n ≠ serverCode
            ∧ n ≠ clientCode ∧ n ≠ speechTimeoutCode ∧ n ≠ noMatchCode
            ∧ n ≠ recognizerBusyCode ∧ n ≠ insufficientPermissionsCode) →
          getErrorCode n = "UNKNOWN_" ++ toString n
            ∧ getErrorText n = "Didn't understand, please try again.")
      ∧ getErrorCode 9999 = "UNKNOWN_9999" ∧ errorReason 9999 = "error"
      ∧ errorReason noMatchCode = "silence" ∧ errorReason speechTimeoutCode = "silence"
      ∧ errorReason networkCode = "error" := by
  refine ⟨?_, ?_, ?_, by decide, by decide, by decide, by decide, by decide⟩
  · unfold errorReason
    split
    · next h => simp [h]
    · next h =>
      refine iff_of_false ?_ h
      decide
  · unfold errorReason
    split
    · exact Or.inl rfl
    · exact Or.inr rfl
  · rintro ⟨h1, h2, h3, h4, h5, h6, h7, h8, h9⟩
    unfold getErrorCode getErrorText
    simp [h1, h2, h3, h4, h5, h6, h7, h8, h9]

/-- Witness for C6 at the concrete unmapped code 9999. -/
theorem c6_error_mapper_witness :
    getErrorCode 9999 = "UNKNOWN_9999" ++ ""
      ∧ getErrorText 9999 = "Didn't understand, please try again." :=
  ⟨by rw [(c6_error_mapper 9999).2.2.1 (by decide) |>.1]; decide,
   (c6_error_mapper 9999).2.2.1 (by decide) |>.2⟩

/-! ### C8: precondition failures of start() -/

/-- C8: if the engine reports unavailable or the permission is not granted,
`start()` fails synchronously with the corresponding precondition rejection,
the plugin state is completely unchanged (so the session id, listening
state, readiness flag and resource handle are untouched and no session is
created), and no event is emitted. -/
theorem c8_preconditions (avail granted popup interim : Bool) (s : PluginState)
    (h : ¬(avail = true ∧ granted = true)) :
    (startOp avail granted popup interim s).1 = s
      ∧ (startOp avail granted popup interim s).2.1 = []
      ∧ (startOp avail granted popup interim s).2.2 ≠ .startedOk := by
  cases avail
  · simp [startOp]
  · cases granted
    · simp [startOp]
    · exact absurd ⟨rfl, rfl⟩ h

/-- Witness for C8: a concrete unavailable-engine call. -/
theorem c8_preconditions_witness :
    (startOp false true false false initState).1 = initState
      ∧ (startOp false true false false initState).2.1 = []
      ∧ (startOp false true false false initState).2.2 ≠ .startedOk :=
  c8_preconditions false true false false initState (by decide)

/-! ### C9: unstable-text merging and partial-result suppression -/

/-- C9: the trailing unstable fragment is merged into the first match only
when the trimmed fragment is nonempty and is neither equal to the trimmed
first match nor already its space-separated trailing suffix; and a
partial-results callback whose built matches equal the last emitted snapshot
emits nothing and changes nothing. -/
theorem c9_interim_merge :
    (∀ (ms : List String) (u : String),
        buildMatchesWithUnstableText (some ms) (some u) ≠ some ms →
          ms ≠ [] ∧ strIsEmpty (strTrim u) = false
            ∧ (strTrim (ms.headD "") == strTrim u) = false
            ∧ strEndsWith (strTrim (ms.headD "")) (" " ++ strTrim u) = false)
      ∧ ∀ (s : PluginState) (m : Option (List String)) (u : Option String),
          buildMatchesWithUnstableText m u = some s.previousInterim →
            onInterimOp m u s = (s, []) := by
  constructor
  · intro ms u h
    unfold buildMatchesWithUnstableText at h
    by_cases he : ms.isEmpty = true
    · simp [he] at h
    · simp only [he, if_false, Bool.false_eq_true] at h
      split_ifs at h with h1 h2
      · exact absurd rfl h
      · exact absurd rfl h
      · refine ⟨by simpa using he, by simpa using h1, ?_, ?_⟩
        · rcases Bool.or_eq_false_iff.mp (Bool.not_eq_true _ |>.mp h2) with ⟨ha, _⟩
          exact ha
        · rcases Bool.or_eq_false_iff.mp (Bool.not_eq_true _ |>.mp h2) with ⟨_, hb⟩
          exact hb
  · intro s m u h
    unfold onInterimOp
    rw [h]
    simp

/-- Witness for C9: a genuine merge and a suppressed duplicate snapshot. -/
theorem c9_interim_merge_witness :
    (["hello"] ≠ [] ∧ strIsEmpty (strTrim "world") = false
        ∧ (strTrim (["hello"].headD "") == strTrim "world") = false
        ∧ strEndsWith (strTrim (["hello"].headD "")) (" " ++ strTrim "world") = false)
      ∧ onInterimOp (some ["hi"]) none { initState with previousInterim := ["hi"] }
          = ({ initState with previousInterim := ["hi"] }, []) :=
  ⟨c9_interim_merge.1 ["hello"] "world" (by decide),
   c9_interim_merge.2 { initState with previousInterim := ["hi"] } (some ["hi"]) none
     (by decide)⟩

/-! ### C1: stale callbacks -/

/-- C1 counterexample: a valid trace in which an engine `onError` callback
captured by session 1 is processed after session 2 has emitted its
`startingListening`, and the stale callback still emits an observable error
event tagged with session 1 (the `onError` handler emits the error event
unconditionally before `finishSession` performs the stale-id check). -/
theorem c1_stale_counterexample :
    (run initState
        [Op.apiStart true true false false, Op.runMain true,
         Op.apiStart true true false false, Op.cbError 1 audioCode]).2
      = [Event.listeningState "startingListening" 1 "userStart" none none,
         Event.listeningState "started" 1 "userStart" none (some "started"),
         Event.listeningState "startingListening" 2 "userStart" none none,
         Event.errorEvent "AUDIO" "Audio recording error" 1]
      ∧ validOps initState
          [Op.apiStart true true false false, Op.runMain true,
           Op.apiStart true true false false, Op.cbError 1 audioCode] = true := by
  decide

/-- C1 amended: `finishSession` invoked with a stale session id is a complete
no-op (no events, no state change), and this suppresses the session-finishing
part of a stale `onError` callback — but the stale `onError` still emits its
error event, tagged with the superseded session id, before the suppressed
finish. -/
theorem c1_stale_amended (s : PluginState) (lid : Nat) (reason : String)
    (ec : Option String) (err : Int) (h : lid ≠ s.sessionId) :
    finishSessionOp lid reason ec s = (s, [])
      ∧ onErrorOp lid err s
          = (s, [Event.errorEvent (getErrorCode err) (getErrorText err) lid]) := by
  constructor
  · unfold finishSessionOp
    simp [h]
  · unfold onErrorOp finishSessionOp
    simp [h]

/-- Witness for C1 amended: a stale finish and a stale error callback against
the freshly loaded plugin (current session id 0). -/
theorem c1_stale_amended_witness :
    finishSessionOp 1 "results" none initState = (initState, [])
      ∧ onErrorOp 1 audioCode initState
          = (initState, [Event.errorEvent (getErrorCode audioCode) (getErrorText audioCode) 1]) :=
  c1_stale_amended initState 1 "results" none audioCode (by decide)

/-! ### C2: termination of every session -/

/-- C2 counterexample, both directions of "exactly one stopped event".
Zero: a valid trace in which session 1 reaches STARTING (indeed STARTED), a
graceful stop is requested, every posted runnable has executed (the main
queue is empty, so the system is quiescent and no further internal step
exists), the engine never calls back — and no `stopped` event is ever
emitted: the controller has no timeout fallback forcing `finishSession`, and
the state is stuck in STOPPING.  Two: after `finishSession` the session
counter still equals the finished id, so a valid trace in which the engine
delivers both a result and an error callback for session 1 runs
`finishSession` twice and emits two `stopped` events for that session. -/
theorem c2_no_timeout_counterexample :
    ((run initState
        [Op.apiStart true true false false, Op.runMain true, Op.apiStop, Op.runMain true]).2
      = [Event.listeningState "startingListening" 1 "userStart" none none,
         Event.listeningState "started" 1 "userStart" none (some "started"),
         Event.listeningState "stoppingListening" 1 "userStop" none none]
      ∧ (run initState
          [Op.apiStart true true false false, Op.runMain true, Op.apiStop,
           Op.runMain true]).1.mainQueue = []
      ∧ (run initState
          [Op.apiStart true true false false, Op.runMain true, Op.apiStop,
           Op.runMain true]).1.lstate = LState.stopping
      ∧ (run initState
          [Op.apiStart true true false false, Op.runMain true, Op.apiStop,
           Op.runMain true]).2.all (fun e => !isStoppedEvent e) = true
      ∧ validOps initState
          [Op.apiStart true true false false, Op.runMain true, Op.apiStop,
           Op.runMain true] = true)
      ∧ ((run initState
            [Op.apiStart true true false false, Op.runMain true,
             Op.cbResults 1 false [], Op.runMain true,
             Op.cbError 1 audioCode, Op.runMain true]).2.countP
              (fun e => isStoppedEvent e) = 2
        ∧ validOps initState
            [Op.apiStart true true false false, Op.runMain true,
             Op.cbResults 1 false [], Op.runMain true,
             Op.cbError 1 audioCode, Op.runMain true] = true) := by
  decide

/-! ### C3: per-session event ordering -/

/-- C3 counterexample: a valid trace in which `stop()` overtakes the posted
inline-start runnable and a partial callback is processed after the stop, so
that for session 1 the events are emitted in the order `startingListening`,
`stoppingListening`, `started`, partial — `started` occurs after
`stoppingListening`, and the partial event occurs after `stoppingListening`
rather than between `started` and `stoppingListening`. -/
theorem c3_order_counterexample :
    (run initState
        [Op.apiStart true true false true, Op.apiStop, Op.runMain true,
         Op.cbInterim (some ["hello"]) none]).2
      = [Event.listeningState "startingListening" 1 "userStart" none none,
         Event.listeningState "stoppingListening" 1 "userStop" none none,
         Event.listeningState "started" 1 "userStart" none (some "started"),
         Event.interimResults ["hello"]]
      ∧ validOps initState
          [Op.apiStart true true false true, Op.apiStop, Op.runMain true,
           Op.cbInterim (some ["hello"]) none] = true := by
  decide

/-- C3 amended: in the undisturbed streaming flow — the posted start runnable
executes before any stop, the partial callback arrives while listening, the
final result ends the session and the recreate runnable then completes — the
events of the session occur in exactly the claimed order: `startingListening`,
`started`, partials, `stoppingListening`, `readyForNextSession`, `stopped`.
The code does not enforce this order under interleaving (see the
counterexample): neither `started` before `stoppingListening` nor the
confinement of partial events is guaranteed, because the posted start
runnable and the partial callback check no session state. -/
theorem c3_order_amended :
    (run initState
        [Op.apiStart true true false true, Op.runMain true,
         Op.cbInterim (some ["hello"]) none,
         Op.cbResults 1 true ["hello world"], Op.runMain true]).2
      = [Event.listeningState "startingListening" 1 "userStart" none none,
         Event.listeningState "started" 1 "userStart" none (some "started"),
         Event.interimResults ["hello"],
         Event.interimResults ["hello world"],
         Event.listeningState "stoppingListening" 1 "results" none none,
         Event.readyForNextSession 1,
         Event.listeningState "stopped" 1 "results" none (some "stopped")]
      ∧ validOps initState
          [Op.apiStart true true false true, Op.runMain true,
           Op.cbInterim (some ["hello"]) none,
           Op.cbResults 1 true ["hello world"], Op.runMain true] = true := by
  decide

/-! ### C4: isListening versus the controller state -/

/-- C4 counterexample: a reachable state (right after a popup `start()` whose
preconditions passed) in which the controller state is STARTING — not IDLE —
while `isListening()` resolves `false`: the method returns the separate
`listening` flag, not a predicate derived from the state machine. -/
theorem c4_islistening_counterexample :
    ((run initState [Op.apiStart true true true false]).1.lstate ≠ LState.idle)
      ∧ isListeningOp (run initState [Op.apiStart true true true false]).1 = false := by
  decide

/-! ### C5: the backward-compatibility status field -/

/-- C5 counterexample: the `startingListening` event emitted by `start()`
carries no `status` entry at all, so not every listeningState event has a
(non-optional) status field. -/
theorem c5_status_counterexample :
    (run initState [Op.apiStart true true false false]).2
      = [Event.listeningState "startingListening" 1 "userStart" none none]
      ∧ ((run initState [Op.apiStart true true false false]).2.all
          (fun e => match e with
            | Event.listeningState _ _ _ _ status => status.isSome
            | _ => true)) = false := by
  decide

/-! ### C10: the popup flow -/

/-- C10 counterexample: after `start(popup=true)` the user calls `stop()`,
and the plugin emits a `stoppingListening` event tagged with the popup
session id — so it is not true that no `stoppingListening` event is ever
emitted for a popup session. -/
theorem c10_popup_counterexample :
    (run initState [Op.apiStart true true true false, Op.apiStop]).2
      = [Event.listeningState "startingListening" 1 "userStart" none none,
         Event.listeningState "stoppingListening" 1 "userStop" none none]
      ∧ validOps initState [Op.apiStart true true true false, Op.apiStop] = true := by
  decide

/-! ### C7: session-id discipline -/

/-- `finishSession` never changes the session counter. -/
theorem sessionId_finishSession (fid : Nat) (r : String) (ec : Option String)
    (s : PluginState) : (finishSessionOp fid r ec s).1.sessionId = s.sessionId := by
  unfold finishSessionOp
  split <;> rfl

/-- The inline-start runnable never changes the session counter. -/
theorem sessionId_runBegin (ok : Bool) (cid : Nat) (i : Bool) (s : PluginState) :
    (runBegin ok cid i s).1.sessionId = s.sessionId := by
  unfold runBegin
  cases ok
  · simp [sessionId_finishSession]
  · rfl

/-- The `stopListening` runnable never changes the session counter. -/
theorem sessionId_runStop (s : PluginState) :
    (runStop s).1.sessionId = s.sessionId := by
  unfold runStop
  split <;> rfl

/-- The recreate runnable never changes the session counter. -/
theorem sessionId_runRecreate (ok : Bool) (fid : Nat) (r : String)
    (ec : Option String) (s : PluginState) :
    (runRecreate ok fid r ec s).1.sessionId = s.sessionId := by
  unfold runRecreate
  cases ok <;> rfl

/-- Executing a queued main-thread task never changes the session counter. -/
theorem sessionId_runMainTask (ok : Bool) (s : PluginState) :
    (runMainTask ok s).1.sessionId = s.sessionId := by
  cases hq : s.mainQueue with
  | nil => simp [runMainTask, hq]
  | cons t rest =>
    cases t with
    | beginTask cid i => simp [runMainTask, hq, sessionId_runBegin]
    | stopTask => simp [runMainTask, hq, sessionId_runStop]
    | recreateTask fid reason ec => simp [runMainTask, hq, sessionId_runRecreate]

/-- Every step either leaves the session counter unchanged or is a `start()`
call with passing preconditions, which increments it by exactly one. -/
theorem sessionId_applyOp (op : Op) (s : PluginState) :
    (applyOp op s).1.sessionId = s.sessionId
      ∨ ((applyOp op s).1.sessionId = s.sessionId + 1
           ∧ ∃ popup interim, op = Op.apiStart true true popup interim) := by
  cases op with
  | apiStart a g p i =>
    cases a
    · left; rfl
    · cases g
      · left; rfl
      · right
        refine ⟨?_, p, i, rfl⟩
        cases p <;> rfl
  | apiStop =>
    left
    show (stopOp s).1.sessionId = s.sessionId
    unfold stopOp
    split <;> rfl
  | runMain ok => exact Or.inl (sessionId_runMainTask ok s)
  | cbError lid err => exact Or.inl (sessionId_finishSession lid _ _ s)
  | cbResults lid i ms => exact Or.inl (sessionId_finishSession lid _ _ s)
  | cbInterim ms u =>
    left
    show (onInterimOp ms u s).1.sessionId = s.sessionId
    unfold onInterimOp
    cases buildMatchesWithUnstableText ms u with
    | none => rfl
    | some l =>
      dsimp only
      split
      · rfl
      · split <;> rfl
  | cbSegment ms =>
    left
    show (onSegmentOp ms s).1.sessionId = s.sessionId
    unfold onSegmentOp
    cases ms <;> rfl
  | cbEndOfSegment => left; rfl
  | popupResult => left; rfl

/-- `n` consecutive successful `start()` calls from any state emit exactly
the `startingListening` events with session ids `sessionId+1, …,
sessionId+n` in order. -/
theorem run_replicate_start (n : Nat) (s : PluginState) :
    (run s (List.replicate n (Op.apiStart true true false false))).2
      = (List.range' (s.sessionId + 1) n).map
          (fun k => Event.listeningState "startingListening" k "userStart" none none) := by
  induction n generalizing s with
  | zero => simp [run]
  | succ n ih =>
    rw [List.replicate_succ, List.range'_succ]
    simp only [run, List.map_cons]
    rw [ih]
    rfl

/-- C7: session ids increase by exactly 1 on each `start()` call whose
preconditions pass, no step ever decreases or otherwise changes the counter,
and for `N` consecutive sessions the emitted `startingListening` session ids
are exactly `1, …, N`: strictly increasing, never repeated. -/
theorem c7_session_ids :
    (∀ (op : Op) (s : PluginState),
        (applyOp op s).1.sessionId = s.sessionId
          ∨ ((applyOp op s).1.sessionId = s.sessionId + 1
               ∧ ∃ popup interim, op = Op.apiStart true true popup interim))
      ∧ (∀ (op : Op) (s : PluginState), s.sessionId ≤ (applyOp op s).1.sessionId)
      ∧ ∀ n : Nat,
          (run initState (List.replicate n (Op.apiStart true true false false))).2
            = (List.range' 1 n).map
                (fun k => Event.listeningState "startingListening" k "userStart" none none) := by
  refine ⟨sessionId_applyOp, ?_, ?_⟩
  · intro op s
    rcases sessionId_applyOp op s with h | ⟨h, _⟩ <;> omega
  · intro n
    have h := run_replicate_start n initState
    simpa using h

/-! ### C4 amended: what isListening actually guarantees -/

/-- Invariant: the `listening` flag is set only while the controller state is
not IDLE. -/
def listeningImpliesActive (s : PluginState) : Prop :=
  s.listening = true → s.lstate ≠ LState.idle

/-- `finishSession` preserves the listening invariant (it clears both
together). -/
theorem listeningImpliesActive_finishSession (fid : Nat) (r : String)
    (ec : Option String) (s : PluginState) (h : listeningImpliesActive s) :
    listeningImpliesActive (finishSessionOp fid r ec s).1 := by
  unfold finishSessionOp
  split
  · exact h
  · intro hl
    simp at hl

/-- The inline-start runnable preserves the listening invariant. -/
theorem listeningImpliesActive_runBegin (ok : Bool) (cid : Nat) (i : Bool)
    (s : PluginState) (h : listeningImpliesActive s) :
    listeningImpliesActive (runBegin ok cid i s).1 := by
  unfold runBegin
  cases ok
  · exact listeningImpliesActive_finishSession _ _ _ _ h
  · intro _
    simp

/-- Executing any queued main-thread task preserves the listening invariant. -/
theorem listeningImpliesActive_runMainTask (ok : Bool) (s : PluginState)
    (h : listeningImpliesActive s) : listeningImpliesActive (runMainTask ok s).1 := by
  cases hq : s.mainQueue with
  | nil => simpa [runMainTask, hq] using h
  | cons t rest =>
    cases t with
    | beginTask cid i =>
      simp only [runMainTask, hq]
      exact listeningImpliesActive_runBegin ok cid i _ (fun hl => h hl)
    | stopTask =>
      simp only [runMainTask, hq]
      unfold runStop
      split
      · intro hl; simp at hl
      · exact fun hl => h hl
    | recreateTask fid reason ec =>
      simp only [runMainTask, hq]
      unfold runRecreate
      cases ok
      · exact fun hl => h hl
      · exact fun hl => h hl

/-- Every step preserves the listening invariant. -/
theorem listeningImpliesActive_applyOp (op : Op) (s : PluginState)
    (h : listeningImpliesActive s) : listeningImpliesActive (applyOp op s).1 := by
  cases op with
  | apiStart a g p i =>
    cases a
    · exact h
    · cases g
      · exact h
      · cases p
        · intro _
          simp [applyOp, startOp]
        · intro _
          simp [applyOp, startOp]
  | apiStop =>
    show listeningImpliesActive (stopOp s).1
    unfold stopOp
    split
    · exact h
    · intro _
      simp
  | runMain ok => exact listeningImpliesActive_runMainTask ok s h
  | cbError lid err =>
    exact listeningImpliesActive_finishSession lid _ _ s h
  | cbResults lid i ms =>
    exact listeningImpliesActive_finishSession lid _ _ s h
  | cbInterim ms u =>
    show listeningImpliesActive (onInterimOp ms u s).1
    unfold onInterimOp
    cases buildMatchesWithUnstableText ms u with
    | none => exact h
    | some l =>
      dsimp only
      split
      · exact h
      · split
        · exact h
        · exact fun hl => h hl
  | cbSegment ms =>
    show listeningImpliesActive (onSegmentOp ms s).1
    unfold onSegmentOp
    cases ms <;> exact h
  | cbEndOfSegment => exact h
  | popupResult =>
    intro hl
    simp [applyOp, listeningResultOp] at hl

/-- Runs preserve the listening invariant. -/
theorem listeningImpliesActive_run (ops : List Op) (s : PluginState)
    (h : listeningImpliesActive s) : listeningImpliesActive (run s ops).1 := by
  induction ops generalizing s with
  | nil => exact h
  | cons op ops ih => exact ih _ (listeningImpliesActive_applyOp op s h)

/-- C4 amended: `isListening()` returns the separate `listening` flag, not a
predicate derived from the controller state.  A `true` answer does imply the
state is not IDLE, but the converse fails: the counterexample shows a
reachable state with state STARTING where `isListening()` answers `false`. -/
theorem c4_islistening_amended (ops : List Op)
    (h : isListeningOp (run initState ops).1 = true) :
    (run initState ops).1.lstate ≠ LState.idle :=
  listeningImpliesActive_run ops initState
    (fun hl => absurd hl (by decide)) h

/-- Witness for C4 amended: after an inline start whose posted runnable ran,
`isListening()` answers true and the state is STARTED, hence not IDLE. -/
theorem c4_islistening_amended_witness :
    (run initState [Op.apiStart true true false false, Op.runMain true]).1.lstate
      ≠ LState.idle :=
  c4_islistening_amended [Op.apiStart true true false false, Op.runMain true] (by decide)

/-! ### C5 amended: the status discipline actually implemented -/

/-- Events emitted by `finishSession` satisfy the status discipline. -/
theorem goodStatus_finishSession (fid : Nat) (r : String) (ec : Option String)
    (s : PluginState) : (finishSessionOp fid r ec s).2.all goodStatus = true := by
  unfold finishSessionOp
  split
  · rfl
  · split <;> rfl

/-- Events emitted by the inline-start runnable satisfy the status
discipline. -/
theorem goodStatus_runBegin (ok : Bool) (cid : Nat) (i : Bool) (s : PluginState) :
    (runBegin ok cid i s).2.all goodStatus = true := by
  unfold runBegin
  cases ok
  · simp only [Bool.false_eq_true, if_false, List.all_cons]
    exact goodStatus_finishSession cid _ _ _
  · rfl

/-- Events emitted by any queued main-thread task satisfy the status
discipline. -/
theorem goodStatus_runMainTask (ok : Bool) (s : PluginState) :
    (runMainTask ok s).2.all goodStatus = true := by
  cases hq : s.mainQueue with
  | nil => simp [runMainTask, hq]
  | cons t rest =>
    cases t with
    | beginTask cid i =>
      simp only [runMainTask, hq]
      exact goodStatus_runBegin ok cid i _
    | stopTask =>
      simp only [runMainTask, hq]
      unfold runStop
      split <;> rfl
    | recreateTask fid reason ec =>
      simp only [runMainTask, hq]
      unfold runRecreate
      cases ok <;> rfl

/-- Every step emits only events satisfying the status discipline. -/
theorem goodStatus_applyOp (op : Op) (s : PluginState) :
    (applyOp op s).2.all goodStatus = true := by
  cases op with
  | apiStart a g p i =>
    cases a
    · rfl
    · cases g
      · rfl
      · cases p <;> rfl
  | apiStop =>
    show (stopOp s).2.all goodStatus = true
    unfold stopOp
    split <;> rfl
  | runMain ok => exact goodStatus_runMainTask ok s
  | cbError lid err =>
    show (onErrorOp lid err s).2.all goodStatus = true
    unfold onErrorOp
    simp only [List.all_cons]
    exact goodStatus_finishSession lid _ _ _
  | cbResults lid i ms =>
    show (onResultsOp lid i ms s).2.all goodStatus = true
    unfold onResultsOp
    cases i
    · simp only [Bool.false_eq_true, if_false, List.nil_append]
      exact goodStatus_finishSession lid _ _ _
    · simp only [if_true, List.cons_append, List.nil_append, List.all_cons]
      exact goodStatus_finishSession lid _ _ _
  | cbInterim ms u =>
    show (onInterimOp ms u s).2.all goodStatus = true
    unfold onInterimOp
    cases buildMatchesWithUnstableText ms u with
    | none => rfl
    | some l =>
      dsimp only
      split
      · rfl
      · split <;> rfl
  | cbSegment ms =>
    show (onSegmentOp ms s).2.all goodStatus = true
    unfold onSegmentOp
    cases ms <;> rfl
  | cbEndOfSegment => rfl
  | popupResult => rfl

/-- C5 amended: a `listeningState` event carries the backward-compatibility
`status` entry exactly when its `state` is `started` or `stopped`, and in
those cases `status` equals the `state` string; the `startingListening` and
`stoppingListening` events carry no `status` entry at all (so the field is
optional, contrary to the claim). -/
theorem c5_status_amended (ops : List Op) (e : Event)
    (h : e ∈ (run initState ops).2) : goodStatus e = true := by
  suffices hall : ∀ s : PluginState, (run s ops).2.all goodStatus = true by
    exact List.all_eq_true.mp (hall initState) e h
  clear h
  induction ops with
  | nil => intro s; rfl
  | cons op ops ih =>
    intro s
    show ((applyOp op s).2 ++ (run (applyOp op s).1 ops).2).all goodStatus = true
    rw [List.all_append, goodStatus_applyOp op s, ih (applyOp op s).1]
    rfl

/-- Witness for C5 amended: the `started` event of a completed inline start
satisfies the status discipline. -/
theorem c5_status_amended_witness :
    goodStatus (Event.listeningState "started" 1 "userStart" none (some "started"))
      = true :=
  c5_status_amended [Op.apiStart true true false false, Op.runMain true]
    (Event.listeningState "started" 1 "userStart" none (some "started")) (by decide)

/-! ### C2 amended: how sessions actually close -/

/-- A step that is not an engine result/error callback and not a failing
main-thread runnable emits no `stopped` event and never enqueues the
recreate runnable. -/
theorem noStopped_applyOp (op : Op) (s : PluginState)
    (hq : s.mainQueue.all taskNotRecreate = true)
    (hop : noFinishTrigger op = true) :
    (applyOp op s).1.mainQueue.all taskNotRecreate = true
      ∧ (applyOp op s).2.all (fun e => !isStoppedEvent e) = true := by
  cases op with
  | apiStart a g p i =>
    cases a
    · exact ⟨hq, rfl⟩
    · cases g
      · exact ⟨hq, rfl⟩
      · cases p
        · refine ⟨?_, rfl⟩
          simp [applyOp, startOp, List.all_append, hq, taskNotRecreate]
        · exact ⟨hq, rfl⟩
  | apiStop =>
    show (stopOp s).1.mainQueue.all taskNotRecreate = true
      ∧ (stopOp s).2.all (fun e => !isStoppedEvent e) = true
    unfold stopOp
    split
    · exact ⟨hq, rfl⟩
    · refine ⟨?_, rfl⟩
      simp [List.all_append, hq, taskNotRecreate]
  | runMain ok =>
    have hok : ok = true := hop
    subst hok
    cases hqs : s.mainQueue with
    | nil =>
      refine ⟨?_, ?_⟩
      · simp only [applyOp, runMainTask, hqs]
        rw [hqs] at hq
        exact hq
      · simp [applyOp, runMainTask, hqs]
    | cons t rest =>
      rw [hqs, List.all_cons, Bool.and_eq_true] at hq
      obtain ⟨ht, hrest⟩ := hq
      cases t with
      | beginTask cid i =>
        refine ⟨?_, ?_⟩
        · simpa [applyOp, runMainTask, hqs, runBegin] using hrest
        · simp [applyOp, runMainTask, hqs, runBegin, isStoppedEvent]
      | stopTask =>
        simp only [applyOp, runMainTask, hqs]
        constructor
        · unfold runStop
          split <;> simpa using hrest
        · unfold runStop
          split <;> rfl
      | recreateTask fid reason ec =>
        simp [taskNotRecreate] at ht
  | cbError lid err => simp [noFinishTrigger] at hop
  | cbResults lid i ms => simp [noFinishTrigger] at hop
  | cbInterim ms u =>
    show (onInterimOp ms u s).1.mainQueue.all taskNotRecreate = true
      ∧ (onInterimOp ms u s).2.all (fun e => !isStoppedEvent e) = true
    unfold onInterimOp
    cases buildMatchesWithUnstableText ms u with
    | none => exact ⟨hq, rfl⟩
    | some l =>
      dsimp only
      split
      · exact ⟨hq, rfl⟩
      · split
        · exact ⟨hq, rfl⟩
        · exact ⟨hq, rfl⟩
  | cbSegment ms =>
    show (onSegmentOp ms s).1.mainQueue.all taskNotRecreate = true
      ∧ (onSegmentOp ms s).2.all (fun e => !isStoppedEvent e) = true
    unfold onSegmentOp
    cases ms <;> exact ⟨hq, rfl⟩
  | cbEndOfSegment => exact ⟨hq, rfl⟩
  | popupResult => exact ⟨hq, rfl⟩

/-- C2 amended: a `stopped` event can only be produced by `finishSession`
running with the current session id — reached through an engine `onResults`
or `onError` callback or a failing posted start runnable.  The controller has
no timeout fallback: when after a graceful `stop()` no engine callback ever
arrives and no posted runnable fails, no `stopped` event is ever emitted
(the counterexample exhibits a quiescent stuck STOPPING state). -/
theorem c2_no_timeout_amended (ops : List Op) (s : PluginState)
    (hq : s.mainQueue.all taskNotRecreate = true)
    (hops : ops.all noFinishTrigger = true) :
    (run s ops).2.all (fun e => !isStoppedEvent e) = true := by
  induction ops generalizing s with
  | nil => rfl
  | cons op ops ih =>
    rw [List.all_cons, Bool.and_eq_true] at hops
    obtain ⟨hop, hops⟩ := hops
    obtain ⟨hq1, hev⟩ := noStopped_applyOp op s hq hop
    show ((applyOp op s).2 ++ (run (applyOp op s).1 ops).2).all
      (fun e => !isStoppedEvent e) = true
    rw [List.all_append, hev, ih (applyOp op s).1 hq1 hops]
    rfl

/-- Witness for C2 amended: the stuck stop trace of the counterexample
satisfies the hypotheses, and indeed emits no stopped event. -/
theorem c2_no_timeout_amended_witness :
    (run initState
        [Op.apiStart true true false false, Op.runMain true, Op.apiStop,
         Op.runMain true]).2.all (fun e => !isStoppedEvent e) = true :=
  c2_no_timeout_amended
    [Op.apiStart true true false false, Op.runMain true, Op.apiStop, Op.runMain true]
    initState (by decide) (by decide)

/-! ### C10 amended: the popup session can never be started or closed -/

/-- `finishSession` for an id other than `p` preserves `avoids p` and emits
no event indicating session `p` started or closed. -/
theorem avoids_finishSession (p fid : Nat) (r : String) (ec : Option String)
    (s : PluginState) (hfid : fid ≠ p) (h : avoids p s) :
    avoids p (finishSessionOp fid r ec s).1
      ∧ (finishSessionOp fid r ec s).2.all (fun e => !closesSessionFor p e) = true := by
  obtain ⟨hle, hmem, hqueue⟩ := h
  unfold finishSessionOp
  split
  · exact ⟨⟨hle, hmem, hqueue⟩, rfl⟩
  · dsimp only
    constructor
    · refine ⟨hle, hmem, ?_⟩
      intro t htm
      rcases List.mem_append.mp htm with h1 | h2
      · exact hqueue t h1
      · rw [List.mem_singleton.mp h2]
        simpa [taskAvoids] using hfid
    · split
      · simp [closesSessionFor]
      · rfl

/-- Every valid step preserves `avoids p` and emits no event indicating
session `p` started or closed. -/
theorem avoids_applyOp (p : Nat) (op : Op) (s : PluginState)
    (hv : validOp s op = true) (h : avoids p s) :
    avoids p (applyOp op s).1
      ∧ (applyOp op s).2.all (fun e => !closesSessionFor p e) = true := by
  obtain ⟨hle, hmem, hqueue⟩ := h
  cases op with
  | apiStart a g pp i =>
    cases a
    · exact ⟨⟨hle, hmem, hqueue⟩, rfl⟩
    · cases g
      · exact ⟨⟨hle, hmem, hqueue⟩, rfl⟩
      · cases pp
        · refine ⟨⟨?_, hmem, ?_⟩, ?_⟩
          · show p ≤ s.sessionId + 1
            omega
          · show ∀ t ∈ s.mainQueue ++ [MainTask.beginTask (s.sessionId + 1) i],
              taskAvoids p t = true
            intro t htm
            rcases List.mem_append.mp htm with h1 | h2
            · exact hqueue t h1
            · rw [List.mem_singleton.mp h2]
              simp only [taskAvoids, bne_iff_ne, ne_eq]
              omega
          · show (List.all
              [Event.listeningState "startingListening" (s.sessionId + 1) "userStart" none none]
              fun e => !closesSessionFor p e) = true
            simp [closesSessionFor]
        · refine ⟨⟨?_, hmem, hqueue⟩, ?_⟩
          · show p ≤ s.sessionId + 1
            omega
          · show (List.all
              [Event.listeningState "startingListening" (s.sessionId + 1) "userStart" none none]
              fun e => !closesSessionFor p e) = true
            simp [closesSessionFor]
  | apiStop =>
    show avoids p (stopOp s).1
      ∧ (stopOp s).2.all (fun e => !closesSessionFor p e) = true
    unfold stopOp
    split
    · exact ⟨⟨hle, hmem, hqueue⟩, rfl⟩
    · refine ⟨⟨hle, hmem, ?_⟩, ?_⟩
      · intro t htm
        rcases List.mem_append.mp htm with h1 | h2
        · exact hqueue t h1
        · rw [List.mem_singleton.mp h2]
          rfl
      · simp [closesSessionFor]
  | runMain ok =>
    cases hqs : s.mainQueue with
    | nil =>
      simp only [applyOp, runMainTask, hqs]
      exact ⟨⟨hle, hmem, hqueue⟩, rfl⟩
    | cons t rest =>
      rw [hqs] at hqueue
      have ht := hqueue t (List.mem_cons_self t rest)
      have hrest : ∀ x ∈ rest, taskAvoids p x = true :=
        fun x hx => hqueue x (List.mem_cons_of_mem _ hx)
      cases t with
      | beginTask cid i =>
        simp only [applyOp, runMainTask, hqs]
        have hcid : cid ≠ p := by simpa [taskAvoids] using ht
        unfold runBegin
        cases ok
        · simp only [Bool.false_eq_true, if_false, List.all_cons]
          have hfin := avoids_finishSession p cid "error" (some "START_FAILED")
            { s with mainQueue := rest, recognizer := false, installedId := none }
            hcid ⟨hle, hmem, hrest⟩
          refine ⟨hfin.1, ?_⟩
          rw [hfin.2]
          simp [closesSessionFor]
        · refine ⟨⟨hle, ?_, hrest⟩, ?_⟩
          · show p ∉ s.startedIds ++ [cid]
            intro hp
            rcases List.mem_append.mp hp with h1 | h2
            · exact hmem h1
            · exact hcid (List.mem_singleton.mp h2).symm
          · simp [closesSessionFor, hcid, Ne.symm hcid]
      | stopTask =>
        simp only [applyOp, runMainTask, hqs]
        unfold runStop
        split
        · exact ⟨⟨hle, hmem, hrest⟩, rfl⟩
        · exact ⟨⟨hle, hmem, hrest⟩, rfl⟩
      | recreateTask fid reason ec =>
        simp only [applyOp, runMainTask, hqs]
        have hfid : fid ≠ p := by simpa [taskAvoids] using ht
        unfold runRecreate
        cases ok
        · refine ⟨⟨hle, hmem, hrest⟩, ?_⟩
          simp [closesSessionFor, hfid, Ne.symm hfid]
        · refine ⟨⟨hle, hmem, hrest⟩, ?_⟩
          simp [closesSessionFor, hfid, Ne.symm hfid]
  | cbError lid err =>
    have hlid : lid ∈ s.startedIds := by simpa [validOp] using hv
    have hne : lid ≠ p := fun heq => hmem (heq ▸ hlid)
    show avoids p (onErrorOp lid err s).1
      ∧ (onErrorOp lid err s).2.all (fun e => !closesSessionFor p e) = true
    unfold onErrorOp
    have hfin := avoids_finishSession p lid (errorReason err)
      (some (getErrorCode err)) s hne ⟨hle, hmem, hqueue⟩
    refine ⟨hfin.1, ?_⟩
    simp only [List.all_cons, hfin.2]
    simp [closesSessionFor]
  | cbResults lid i ms =>
    have hlid : lid ∈ s.startedIds := by simpa [validOp] using hv
    have hne : lid ≠ p := fun heq => hmem (heq ▸ hlid)
    show avoids p (onResultsOp lid i ms s).1
      ∧ (onResultsOp lid i ms s).2.all (fun e => !closesSessionFor p e) = true
    unfold onResultsOp
    have hfin := avoids_finishSession p lid "results" none s hne ⟨hle, hmem, hqueue⟩
    refine ⟨hfin.1, ?_⟩
    cases i
    · simpa using hfin.2
    · show ((Event.interimResults ms :: (finishSessionOp lid "results" none s).2).all
        fun e => !closesSessionFor p e) = true
      rw [List.all_cons, hfin.2]
      simp [closesSessionFor]
  | cbInterim ms u =>
    show avoids p (onInterimOp ms u s).1
      ∧ (onInterimOp ms u s).2.all (fun e => !closesSessionFor p e) = true
    unfold onInterimOp
    cases buildMatchesWithUnstableText ms u with
    | none => exact ⟨⟨hle, hmem, hqueue⟩, rfl⟩
    | some l =>
      dsimp only
      split
      · exact ⟨⟨hle, hmem, hqueue⟩, rfl⟩
      · split
        · exact ⟨⟨hle, hmem, hqueue⟩, rfl⟩
        · exact ⟨⟨hle, hmem, hqueue⟩, by simp [closesSessionFor]⟩
  | cbSegment ms =>
    show avoids p (onSegmentOp ms s).1
      ∧ (onSegmentOp ms s).2.all (fun e => !closesSessionFor p e) = true
    unfold onSegmentOp
    cases ms with
    | none => exact ⟨⟨hle, hmem, hqueue⟩, rfl⟩
    | some l => exact ⟨⟨hle, hmem, hqueue⟩, by simp [closesSessionFor]⟩
  | cbEndOfSegment => exact ⟨⟨hle, hmem, hqueue⟩, rfl⟩
  | popupResult => exact ⟨⟨hle, hmem, hqueue⟩, rfl⟩

/-- Valid runs preserve `avoids p` and never emit an event indicating
session `p` started or closed. -/
theorem avoids_run (p : Nat) (ops : List Op) (s : PluginState)
    (hv : validOps s ops = true) (h : avoids p s) :
    avoids p (run s ops).1
      ∧ (run s ops).2.all (fun e => !closesSessionFor p e) = true := by
  induction ops generalizing s with
  | nil => exact ⟨h, rfl⟩
  | cons op ops ih =>
    rw [validOps, Bool.and_eq_true] at hv
    obtain ⟨hv1, hv2⟩ := hv
    obtain ⟨h1, hev⟩ := avoids_applyOp p op s hv1 h
    obtain ⟨h2, hev2⟩ := ih (applyOp op s).1 hv2 h1
    refine ⟨h2, ?_⟩
    show ((applyOp op s).2 ++ (run (applyOp op s).1 ops).2).all
      (fun e => !closesSessionFor p e) = true
    rw [List.all_append, hev, hev2]
    rfl

/-- C10 amended: `start(popup=true)` with passing preconditions increments
the session id and emits `startingListening`; the popup flow itself (the
activity result only resolves or rejects the call and clears the listening
flag) never invokes `finishSession`, leaves the controller state at
STARTING, and in every valid continuation no `started`, `readyForNextSession`
or `stopped` event is ever emitted for the popup session — but a later
`stop()` does emit a `stoppingListening` tagged with it (see the
counterexample), so `stoppingListening` must be excluded from the claim. -/
theorem c10_popup_amended (ops : List Op)
    (hv : validOps (run initState [Op.apiStart true true true false]).1 ops = true) :
    ((run initState [Op.apiStart true true true false, Op.popupResult]).2
        = [Event.listeningState "startingListening" 1 "userStart" none none]
      ∧ (run initState [Op.apiStart true true true false, Op.popupResult]).1.lstate
          = LState.starting
      ∧ (run initState [Op.apiStart true true true false, Op.popupResult]).1.sessionId = 1)
      ∧ (run (run initState [Op.apiStart true true true false]).1 ops).2.all
          (fun e => !closesSessionFor 1 e) = true := by
  refine ⟨by decide, ?_⟩
  exact (avoids_run 1 ops _ hv (by decide)).2

/-- Witness for C10 amended: continuing the popup session with a `stop()`
call emits nothing that starts or closes session 1. -/
theorem c10_popup_amended_witness :
    (run (run initState [Op.apiStart true true true false]).1 [Op.apiStop]).2.all
        (fun e => !closesSessionFor 1 e) = true :=
  (c10_popup_amended [Op.apiStop] (by decide)).2

end SpeechRec
